import Mathlib

set_option linter.unusedVariables false

/-!
Verification of the withdrawal-lifecycle core (internal/store/store.go,
internal/api/handlers.go, schema.sql).

The backing database is modelled as explicit state: one list of rows per
table plus the two BIGSERIAL counters.  Each store operation is a function
from the state to `Except StoreError (result × state)`; returning `.error`
models a rolled-back transaction, so the caller's state is unchanged on
failure.  Timestamp columns are omitted (never read by the code).

The schema's CHECK constraints (balance >= 0, amount > 0, currency =
'USDT') are part of the model: an INSERT/UPDATE violating them fails the
transaction with a generic storage error, exactly as Postgres would.

`CreateWithdrawalRaced` carries an extra `race` parameter: an optional
withdrawal row committed by a concurrent transaction between the
idempotency lookup and the insert.  It is visible to the insert's
uniqueness constraint and to the retry lookup (read-committed isolation),
which is precisely the window the unique-violation recovery code in
CreateWithdrawal (store.go lines 73-85) closes.  The serialized case is
`race = none`.
-/

namespace HH

/-- Row of the `users` table (schema.sql). -/
structure User where
  id : Int
  balance : Int
deriving DecidableEq

/-- Row of the `withdrawals` table (schema.sql / models.go `Withdrawal`). -/
structure Withdrawal where
  id : Int
  userId : Int
  amount : Int
  currency : String
  destination : String
  status : String
  idempotencyKey : String
deriving DecidableEq

/-- models.go `CreateWithdrawalInput`. -/
structure CreateWithdrawalInput where
  userId : Int
  amount : Int
  currency : String
  destination : String
  idempotencyKey : String
deriving DecidableEq

/-- Row of the `ledger_entries` table (schema.sql / models.go `LedgerEntry`). -/
structure LedgerEntry where
  id : Int
  userId : Int
  withdrawalId : Option Int
  amount : Int
  currency : String
  direction : String
deriving DecidableEq

def StatusPending : String := "pending"

def StatusConfirmed : String := "confirmed"

def DirectionDebit : String := "debit"

/-- The sentinel errors of internal/store (errors.go) plus a generic
storage error for anything else surfaced from the backing store. -/
inductive StoreError where
  | insufficientBalance
  | idempotencyConflict
  | notFound
  | userNotFound
  | userExists
  | invalidStatus
  | storage
deriving DecidableEq

/-- The whole persisted state: the three tables of schema.sql and the two
BIGSERIAL counters. -/
structure DB where
  users : List User
  withdrawals : List Withdrawal
  ledger_entries : List LedgerEntry
  nextWithdrawalId : Int
  nextLedgerId : Int
deriving DecidableEq

/-- `SELECT ... FROM users WHERE id = $1` (id is the primary key, so the
first match is the row). -/
def findUser (db : DB) (id : Int) : Option User :=
  db.users.find? (fun u => u.id == id)

/-- `SELECT ... FROM withdrawals WHERE user_id = $1 AND idempotency_key = $2`
over a given visible set of rows. -/
def lookupIdem (ws : List Withdrawal) (userId : Int) (key : String) : Option Withdrawal :=
  ws.find? (fun w => w.userId == userId && w.idempotencyKey == key)

/-- store.go `getWithdrawalByIdempotency`: the idempotency lookup against the
committed table. -/
def getWithdrawalByIdempotency (db : DB) (userId : Int) (key : String) : Option Withdrawal :=
  lookupIdem db.withdrawals userId key

/-- store.go `samePayload`. -/
def samePayload (w : Withdrawal) (input : CreateWithdrawalInput) : Bool :=
  w.amount == input.amount && w.currency == input.currency && w.destination == input.destination

/-- The two constraint-violation signals the store code distinguishes:
code 23505 (unique violation, store.go `isUniqueViolation`) versus any
other constraint error. -/
inductive InsertError where
  | uniqueViolation
  | checkViolation
deriving DecidableEq

/-- store.go `insertWithdrawal`: `INSERT INTO withdrawals ... RETURNING ...`.
The row id is drawn from the BIGSERIAL counter and the status is `pending`.
The CHECK constraints (amount > 0, currency = 'USDT') and the UNIQUE
(user_id, idempotency_key) constraint of schema.sql can fail the insert;
the uniqueness check sees committed rows of concurrent transactions
(`race`). -/
def insertWithdrawal (db : DB) (input : CreateWithdrawalInput) (race : Option Withdrawal) :
    Except InsertError (Withdrawal × DB) :=
  if input.amount ≤ 0 ∨ input.currency ≠ "USDT" then
    .error .checkViolation
  else if (lookupIdem (db.withdrawals ++ race.toList) input.userId input.idempotencyKey).isSome then
    .error .uniqueViolation
  else
    let w : Withdrawal :=
      { id := db.nextWithdrawalId, userId := input.userId, amount := input.amount,
        currency := input.currency, destination := input.destination,
        status := StatusPending, idempotencyKey := input.idempotencyKey }
    .ok (w, { db with withdrawals := db.withdrawals ++ [w],
                      nextWithdrawalId := db.nextWithdrawalId + 1 })

/-- `UPDATE users SET balance = balance - $1 WHERE id = $2` (store.go line 87),
guarded by the schema's CHECK (balance >= 0) on every updated row. -/
def updateBalance (db : DB) (userId : Int) (amount : Int) : Except InsertError DB :=
  if db.users.any (fun u => u.id == userId && decide (u.balance - amount < 0)) then
    .error .checkViolation
  else
    .ok { db with users := db.users.map (fun u =>
      if u.id == userId then { u with balance := u.balance - amount } else u) }

/-- store.go `insertLedgerEntry`: one `debit` row referencing the new
withdrawal, subject to the ledger CHECK constraints. -/
def insertLedgerEntry (db : DB) (withdrawalId : Int) (input : CreateWithdrawalInput) :
    Except InsertError DB :=
  if input.amount ≤ 0 ∨ input.currency ≠ "USDT" then
    .error .checkViolation
  else
    .ok { db with
      ledger_entries := db.ledger_entries ++
        [{ id := db.nextLedgerId, userId := input.userId, withdrawalId := some withdrawalId,
           amount := input.amount, currency := input.currency, direction := DirectionDebit }],
      nextLedgerId := db.nextLedgerId + 1 }

/-- The unique-violation recovery block of CreateWithdrawal (store.go lines
75-83): re-run the idempotency lookup once against the rows now visible;
return the row if the payload matches, fail with IdempotencyConflict if it
differs, and propagate the insert's storage error if the re-lookup finds
nothing. -/
def onUniqueViolation (visible : List Withdrawal) (input : CreateWithdrawalInput)
    (insertErr : StoreError) : Except StoreError Withdrawal :=
  match lookupIdem visible input.userId input.idempotencyKey with
  | some existing =>
    if samePayload existing input then .ok existing else .error .idempotencyConflict
  | none => .error insertErr

/-- store.go `CreateWithdrawal`, one transaction: lock the user row
(`SELECT balance ... FOR UPDATE`), resolve idempotency, check the balance,
insert the pending row (recovering once from a uniqueness race), debit the
balance, append the ledger entry, commit.  Any error rolls the whole
transaction back, so no state is returned with an error. -/
def CreateWithdrawalRaced (db : DB) (input : CreateWithdrawalInput) (race : Option Withdrawal) :
    Except StoreError (Withdrawal × DB) :=
  match findUser db input.userId with
  | none => .error .userNotFound
  | some u =>
    match getWithdrawalByIdempotency db input.userId input.idempotencyKey with
    | some existing =>
      if samePayload existing input then .ok (existing, db)
      else .error .idempotencyConflict
    | none =>
      if u.balance < input.amount then .error .insufficientBalance
      else
        match insertWithdrawal db input race with
        | .error .uniqueViolation =>
          (match onUniqueViolation (db.withdrawals ++ race.toList) input .storage with
           | .ok existing => .ok (existing, db)
           | .error e => .error e)
        | .error .checkViolation => .error .storage
        | .ok (created, db1) =>
          match updateBalance db1 input.userId input.amount with
          | .error _ => .error .storage
          | .ok db2 =>
            match insertLedgerEntry db2 created.id input with
            | .error _ => .error .storage
            | .ok db3 => .ok (created, db3)

/-- store.go `CreateWithdrawal` in the serialized case: the per-user
`FOR UPDATE` lock guarantees no concurrent insert for this user commits
inside the transaction, i.e. `race = none`. -/
def CreateWithdrawal (db : DB) (input : CreateWithdrawalInput) :
    Except StoreError (Withdrawal × DB) :=
  CreateWithdrawalRaced db input none

/-- store.go `CreateUser`: `INSERT INTO users (id, balance) VALUES ($1, $2)`;
the CHECK (balance >= 0) fails as a generic storage error, a duplicate id
as `ErrUserExists`. -/
def CreateUser (db : DB) (id : Int) (balance : Int) : Except StoreError (User × DB) :=
  if balance < 0 then .error .storage
  else if (db.users.find? (fun u => u.id == id)).isSome then .error .userExists
  else
    .ok ({ id := id, balance := balance },
         { db with users := db.users ++ [{ id := id, balance := balance }] })

/-- `SELECT ... FROM withdrawals WHERE id = $1` (id is the primary key). -/
def findWithdrawal (db : DB) (id : Int) : Option Withdrawal :=
  db.withdrawals.find? (fun w => w.id == id)

/-- store.go `GetWithdrawal`. -/
def GetWithdrawal (db : DB) (id : Int) : Except StoreError Withdrawal :=
  match findWithdrawal db id with
  | none => .error .notFound
  | some w => .ok w

/-- store.go `ConfirmWithdrawal`, one transaction: lock the row, then
absent -> NotFound; confirmed -> commit unchanged; pending -> set status to
confirmed; anything else -> InvalidStatus (rolled back). -/
def ConfirmWithdrawal (db : DB) (id : Int) : Except StoreError (Withdrawal × DB) :=
  match findWithdrawal db id with
  | none => .error .notFound
  | some w =>
    if w.status = StatusConfirmed then .ok (w, db)
    else if w.status ≠ StatusPending then .error .invalidStatus
    else
      .ok ({ w with status := StatusConfirmed },
        { db with withdrawals := db.withdrawals.map (fun x =>
            if x.id == id then { x with status := StatusConfirmed } else x) })

/-! ### HTTP layer (internal/api/handlers.go)

A request body is `Option req`: `none` models a body the JSON decoder
rejects (malformed JSON, unrecognized fields under DisallowUnknownFields,
or trailing data), which the handlers turn into a 400 before touching the
store. -/

/-- handlers.go `createWithdrawalRequest`. -/
structure createWithdrawalRequest where
  user_id : Int
  amount : Int
  currency : String
  destination : String
  idempotency_key : String
deriving DecidableEq

/-- handlers.go `createUserRequest`. -/
structure createUserRequest where
  id : Int
  balance : Int
deriving DecidableEq

/-- An HTTP error response: status code and error body. -/
structure apiError where
  status : Nat
  code : String
deriving DecidableEq

/-- handlers.go `validateCreateWithdrawal` (true = no error). -/
def validateCreateWithdrawal (req : createWithdrawalRequest) : Bool :=
  decide (0 < req.user_id) && decide (0 < req.amount) &&
  (req.currency.trim == "USDT") &&
  !(req.destination.trim == "") && !(req.idempotency_key.trim == "")

/-- handlers.go `validateCreateUser` (true = no error). -/
def validateCreateUser (req : createUserRequest) : Bool :=
  decide (0 < req.id) && decide (0 ≤ req.balance)

/-- handlers.go `handleCreateWithdrawal`: decode, validate, trim, call the
store, and map store errors to HTTP responses.  The pair's second component
is the store state after the call. -/
def handleCreateWithdrawal (db : DB) (body : Option createWithdrawalRequest) :
    Except apiError Withdrawal × DB :=
  match body with
  | none => (.error { status := 400, code := "invalid_request" }, db)
  | some req =>
    if validateCreateWithdrawal req then
      let input : CreateWithdrawalInput :=
        { userId := req.user_id, amount := req.amount, currency := req.currency.trim,
          destination := req.destination.trim, idempotencyKey := req.idempotency_key.trim }
      match CreateWithdrawal db input with
      | .ok (w, db1) => (.ok w, db1)
      | .error .insufficientBalance => (.error { status := 409, code := "insufficient_balance" }, db)
      | .error .idempotencyConflict => (.error { status := 422, code := "idempotency_conflict" }, db)
      | .error .userNotFound => (.error { status := 404, code := "user_not_found" }, db)
      | .error _ => (.error { status := 500, code := "internal_error" }, db)
    else (.error { status := 400, code := "invalid_request" }, db)

/-- handlers.go `handleCreateUser`. -/
def handleCreateUser (db : DB) (body : Option createUserRequest) :
    Except apiError User × DB :=
  match body with
  | none => (.error { status := 400, code := "invalid_request" }, db)
  | some req =>
    if validateCreateUser req then
      match CreateUser db req.id req.balance with
      | .ok (u, db1) => (.ok u, db1)
      | .error .userExists => (.error { status := 409, code := "user_exists" }, db)
      | .error _ => (.error { status := 500, code := "internal_error" }, db)
    else (.error { status := 400, code := "invalid_request" }, db)

/-! ### Operation traces -/

/-- One store-level operation, for reasoning about arbitrary interleavings
of the exposed API. -/
inductive Op where
  | createUser (id : Int) (balance : Int)
  | createWithdrawal (input : CreateWithdrawalInput)
  | getWithdrawal (id : Int)
  | confirmWithdrawal (id : Int)
deriving DecidableEq

/-- The state after one operation: a failed operation is a rolled-back
transaction and leaves the state as it was. -/
def applyOp (db : DB) : Op → DB
  | .createUser id balance =>
    match CreateUser db id balance with
    | .ok (_, db1) => db1
    | .error _ => db
  | .createWithdrawal input =>
    match CreateWithdrawal db input with
    | .ok (_, db1) => db1
    | .error _ => db
  | .getWithdrawal _ => db
  | .confirmWithdrawal id =>
    match ConfirmWithdrawal db id with
    | .ok (_, db1) => db1
    | .error _ => db

/-- Run a sequence of operations. -/
def runOps (db : DB) : List Op → DB
  | [] => db
  | op :: ops => runOps (applyOp db op) ops

/-- The store before any operation: empty tables, serials at 1. -/
def emptyDB : DB :=
  { users := [], withdrawals := [], ledger_entries := [],
    nextWithdrawalId := 1, nextLedgerId := 1 }

/-- Every user row satisfies the balance >= 0 invariant. -/
def balancesNonneg (db : DB) : Prop := ∀ u ∈ db.users, 0 ≤ u.balance

/-- `retryCreate input n db`: issue the identical CreateWithdrawal request
`n` further times after running it once from `db`, threading the state of
each success into the next call. -/
def retryCreate (input : CreateWithdrawalInput) : Nat → DB → Except StoreError (Withdrawal × DB)
  | 0, db => CreateWithdrawal db input
  | n + 1, db =>
    match CreateWithdrawal db input with
    | .ok (_, db1) => retryCreate input n db1
    | .error e => .error e

/-! ### Derived forms of a successful fresh creation -/

/-- The row a fresh creation inserts (id from the serial, status pending). -/
def pendingRow (db : DB) (input : CreateWithdrawalInput) : Withdrawal :=
  { id := db.nextWithdrawalId, userId := input.userId, amount := input.amount,
    currency := input.currency, destination := input.destination,
    status := StatusPending, idempotencyKey := input.idempotencyKey }

/-- The users table after the debit UPDATE. -/
def debitUsers (users : List User) (userId : Int) (amount : Int) : List User :=
  users.map (fun u => if u.id == userId then { u with balance := u.balance - amount } else u)

/-- The ledger row a fresh creation appends. -/
def debitEntry (db : DB) (input : CreateWithdrawalInput) : LedgerEntry :=
  { id := db.nextLedgerId, userId := input.userId, withdrawalId := some db.nextWithdrawalId,
    amount := input.amount, currency := input.currency, direction := DirectionDebit }

/-- The state a successful fresh creation commits. -/
def createdDB (db : DB) (input : CreateWithdrawalInput) : DB :=
  { users := debitUsers db.users input.userId input.amount,
    withdrawals := db.withdrawals ++ [pendingRow db input],
    ledger_entries := db.ledger_entries ++ [debitEntry db input],
    nextWithdrawalId := db.nextWithdrawalId + 1,
    nextLedgerId := db.nextLedgerId + 1 }

/-! ### Basic lemmas about the transaction steps -/

theorem insertWithdrawal_ok_inv (db : DB) (input : CreateWithdrawalInput)
    (race : Option Withdrawal) (w : Withdrawal) (db1 : DB)
    (h : insertWithdrawal db input race = .ok (w, db1)) :
    w = pendingRow db input ∧
    db1 = { db with withdrawals := db.withdrawals ++ [pendingRow db input],
                    nextWithdrawalId := db.nextWithdrawalId + 1 } := by
  simp only [insertWithdrawal] at h
  split at h
  · exact absurd h (by simp)
  · split at h
    · exact absurd h (by simp)
    · simp only [Except.ok.injEq, Prod.mk.injEq] at h
      exact ⟨h.1.symm, h.2.symm⟩

theorem updateBalance_ok_inv (db : DB) (userId amount : Int) (db1 : DB)
    (h : updateBalance db userId amount = .ok db1) :
    db.users.any (fun u => u.id == userId && decide (u.balance - amount < 0)) = false ∧
    db1 = { db with users := debitUsers db.users userId amount } := by
  simp only [updateBalance] at h
  split at h
  · exact absurd h (by simp)
  · next hcond =>
    simp only [Except.ok.injEq] at h
    exact ⟨Bool.eq_false_iff.mpr hcond, h.symm⟩

theorem insertLedgerEntry_ok_inv (db : DB) (withdrawalId : Int)
    (input : CreateWithdrawalInput) (db1 : DB)
    (h : insertLedgerEntry db withdrawalId input = .ok db1) :
    db1 = { db with
      ledger_entries := db.ledger_entries ++
        [{ id := db.nextLedgerId, userId := input.userId, withdrawalId := some withdrawalId,
           amount := input.amount, currency := input.currency, direction := DirectionDebit }],
      nextLedgerId := db.nextLedgerId + 1 } := by
  simp only [insertLedgerEntry] at h
  split at h
  · exact absurd h (by simp)
  · simp only [Except.ok.injEq] at h
    exact h.symm

/-- A successful fresh creation (user present and unique, key unused,
amount within balance, row passing the schema checks) commits exactly the
derived state. -/
theorem create_fresh_ok (db : DB) (input : CreateWithdrawalInput) (u : User)
    (hu : findUser db input.userId = some u)
    (hall : ∀ v ∈ db.users, v.id = input.userId → v = u)
    (hfresh : getWithdrawalByIdempotency db input.userId input.idempotencyKey = none)
    (hbal : input.amount ≤ u.balance)
    (hpos : 0 < input.amount)
    (hcur : input.currency = "USDT") :
    CreateWithdrawal db input = .ok (pendingRow db input, createdDB db input) := by
  have hnotlt : ¬ u.balance < input.amount := not_lt.mpr hbal
  have hchk : ¬ (input.amount ≤ 0 ∨ input.currency ≠ "USDT") := by
    push_neg
    exact ⟨by omega, hcur⟩
  have hfresh' : lookupIdem db.withdrawals input.userId input.idempotencyKey = none := hfresh
  have hany : db.users.any
      (fun v => v.id == input.userId && decide (v.balance - input.amount < 0)) = false := by
    rw [List.any_eq_false]
    intro v hv
    by_cases hid : v.id = input.userId
    · have hvu := hall v hv hid
      subst hvu
      simp only [hid, beq_self_eq_true, Bool.true_and, Bool.not_eq_true,
        decide_eq_false_iff_not, not_lt]
      omega
    · simp [hid]
  simp only [CreateWithdrawal, CreateWithdrawalRaced, hu, getWithdrawalByIdempotency,
    hfresh', if_neg hnotlt, insertWithdrawal, if_neg hchk, Option.toList_none,
    List.append_nil, Option.isSome_none, Bool.false_eq_true, if_false, if_neg,
    updateBalance, hany, insertLedgerEntry]
  rfl

/-- Replay branch: a matching row for (user, key) with an identical payload
is returned as-is, with no state change. -/
theorem create_replay_ok (db : DB) (input : CreateWithdrawalInput) (u : User) (w : Withdrawal)
    (hu : findUser db input.userId = some u)
    (hex : getWithdrawalByIdempotency db input.userId input.idempotencyKey = some w)
    (hsp : samePayload w input = true) :
    CreateWithdrawal db input = .ok (w, db) := by
  simp [CreateWithdrawal, CreateWithdrawalRaced, hu, hex, hsp]

/-- Conflict branch: a matching row for (user, key) with a different payload
fails with IdempotencyConflict. -/
theorem create_conflict (db : DB) (input : CreateWithdrawalInput) (u : User) (w : Withdrawal)
    (hu : findUser db input.userId = some u)
    (hex : getWithdrawalByIdempotency db input.userId input.idempotencyKey = some w)
    (hsp : samePayload w input = false) :
    CreateWithdrawal db input = .error .idempotencyConflict := by
  simp [CreateWithdrawal, CreateWithdrawalRaced, hu, hex, hsp]

/-- Insufficiency branch: a fresh key with an amount above the locked
balance fails with InsufficientBalance. -/
theorem create_insufficient (db : DB) (input : CreateWithdrawalInput) (u : User)
    (hu : findUser db input.userId = some u)
    (hfresh : getWithdrawalByIdempotency db input.userId input.idempotencyKey = none)
    (hlt : u.balance < input.amount) :
    CreateWithdrawal db input = .error .insufficientBalance := by
  simp [CreateWithdrawal, CreateWithdrawalRaced, hu, hfresh, hlt]

/-- The debit UPDATE touches only rows of the target user, so the primary-key
lookup afterwards returns the debited row. -/
theorem findUser_debitUsers (users : List User) (uid amount : Int) :
    (debitUsers users uid amount).find? (fun u => u.id == uid) =
      (users.find? (fun u => u.id == uid)).map
        (fun u => if u.id == uid then { u with balance := u.balance - amount } else u) := by
  have hp : ((fun u : User => u.id == uid) ∘
      (fun u : User => if u.id == uid then { u with balance := u.balance - amount } else u)) =
      (fun u : User => u.id == uid) := by
    funext u
    by_cases hid : u.id = uid <;> simp [hid]
  simp only [debitUsers, List.find?_map, hp]

/-- After a fresh creation the target user's row shows exactly the debited
balance. -/
theorem findUser_createdDB (db : DB) (input : CreateWithdrawalInput) (u : User)
    (hu : findUser db input.userId = some u) :
    findUser (createdDB db input) input.userId =
      some { u with balance := u.balance - input.amount } := by
  have hu' : db.users.find? (fun v => v.id == input.userId) = some u := hu
  have hid : (u.id == input.userId) = true := by
    have hx := List.find?_some hu'
    simpa using hx
  simp only [findUser, createdDB] at *
  rw [findUser_debitUsers, hu']
  simp [hid]
  intro hc
  exact absurd (by simpa using hid) hc

/-- Full inversion of a successful serialized CreateWithdrawal: it either
replayed an existing row and changed nothing, or committed a fresh pending
row with the derived state. -/
theorem CreateWithdrawal_ok_inv (db : DB) (input : CreateWithdrawalInput)
    (w : Withdrawal) (db1 : DB)
    (h : CreateWithdrawal db input = .ok (w, db1)) :
    (∃ u, findUser db input.userId = some u) ∧
    ((db1 = db ∧
      getWithdrawalByIdempotency db input.userId input.idempotencyKey = some w ∧
      samePayload w input = true) ∨
     (getWithdrawalByIdempotency db input.userId input.idempotencyKey = none ∧
      db.users.any (fun v => v.id == input.userId && decide (v.balance - input.amount < 0)) = false ∧
      w = pendingRow db input ∧ db1 = createdDB db input)) := by
  simp only [CreateWithdrawal, CreateWithdrawalRaced] at h
  split at h
  · exact absurd h (by simp)
  · next u hu =>
    refine ⟨⟨u, hu⟩, ?_⟩
    split at h
    · next existing hex =>
      split at h
      · next hsp =>
        simp only [Except.ok.injEq, Prod.mk.injEq] at h
        exact Or.inl ⟨h.2.symm, h.1 ▸ hex, h.1 ▸ hsp⟩
      · exact absurd h (by simp)
    · next hfresh =>
      split at h
      · exact absurd h (by simp)
      · split at h
        · next hins =>
          -- a unique violation is impossible in the serialized case:
          -- the step-3 lookup already returned none
          simp only [insertWithdrawal] at hins
          split at hins
          · exact absurd hins (by simp)
          · split at hins
            · next hsome =>
              rw [Option.toList_none, List.append_nil] at hsome
              rw [show lookupIdem db.withdrawals input.userId input.idempotencyKey = none
                from hfresh] at hsome
              simp at hsome
            · exact absurd hins (by simp)
        · exact absurd h (by simp)
        · next created db1' hins =>
          obtain ⟨hw, hdb1'⟩ := insertWithdrawal_ok_inv db input none created db1' hins
          split at h
          · exact absurd h (by simp)
          · next db2 hupd =>
            obtain ⟨hany, hdb2⟩ := updateBalance_ok_inv _ _ _ _ hupd
            split at h
            · exact absurd h (by simp)
            · next db3 hled =>
              have hdb3 := insertLedgerEntry_ok_inv _ _ _ _ hled
              simp only [Except.ok.injEq, Prod.mk.injEq] at h
              refine Or.inr ⟨hfresh, ?_, ?_, ?_⟩
              · subst hdb1'
                simpa using hany
              · rw [← h.1, hw]
              · rw [← h.2, hdb3, hdb2, hdb1', hw]
                simp [createdDB, debitEntry, pendingRow, debitUsers]

theorem ConfirmWithdrawal_ok_inv (db : DB) (id : Int) (w : Withdrawal) (db1 : DB)
    (h : ConfirmWithdrawal db id = .ok (w, db1)) :
    db1.users = db.users ∧ db1.ledger_entries = db.ledger_entries ∧
    (db1 = db ∨ db1.withdrawals = db.withdrawals.map (fun x =>
        if x.id == id then { x with status := StatusConfirmed } else x)) := by
  simp only [ConfirmWithdrawal] at h
  split at h
  · exact absurd h (by simp)
  · split at h
    · simp only [Except.ok.injEq, Prod.mk.injEq] at h
      rw [← h.2]
      exact ⟨rfl, rfl, Or.inl rfl⟩
    · split at h
      · exact absurd h (by simp)
      · simp only [Except.ok.injEq, Prod.mk.injEq] at h
        rw [← h.2]
        exact ⟨rfl, rfl, Or.inr rfl⟩

theorem CreateUser_ok_inv (db : DB) (id : Int) (balance : Int) (u : User) (db1 : DB)
    (h : CreateUser db id balance = .ok (u, db1)) :
    0 ≤ balance ∧ db1 = { db with users := db.users ++ [{ id := id, balance := balance }] } := by
  simp only [CreateUser] at h
  split at h
  · exact absurd h (by simp)
  · next hneg =>
    split at h
    · exact absurd h (by simp)
    · simp only [Except.ok.injEq, Prod.mk.injEq] at h
      exact ⟨by omega, h.2.symm⟩

/-- One operation preserves the non-negative-balance invariant. -/
theorem applyOp_balancesNonneg (db : DB) (op : Op) (hdb : balancesNonneg db) :
    balancesNonneg (applyOp db op) := by
  cases op with
  | createUser id balance =>
    simp only [applyOp]
    split
    · next u db1 hc =>
      obtain ⟨hb, hdb1⟩ := CreateUser_ok_inv db id balance u db1 hc
      subst hdb1
      intro v hv
      rcases List.mem_append.mp hv with hv | hv
      · exact hdb v hv
      · simp only [List.mem_singleton] at hv
        subst hv
        exact hb
    · exact hdb
  | createWithdrawal input =>
    simp only [applyOp]
    split
    · next w db1 hc =>
      obtain ⟨-, hcase⟩ := CreateWithdrawal_ok_inv db input w db1 hc
      rcases hcase with ⟨rfl, -, -⟩ | ⟨-, hany, -, rfl⟩
      · exact hdb
      · intro v hv
        simp only [createdDB, debitUsers] at hv
        obtain ⟨x, hx, rfl⟩ := List.mem_map.mp hv
        by_cases hid : x.id = input.userId
        · have hpx := List.any_eq_false.mp hany x hx
          simp only [hid, beq_self_eq_true, Bool.true_and, Bool.not_eq_true,
            decide_eq_false_iff_not, not_lt] at hpx
          simp only [hid, beq_self_eq_true, if_true]
          omega
        · simp only [beq_eq_false_iff_ne, ne_eq, hid, not_false_eq_true, if_neg,
            beq_iff_eq]
          simpa [hid] using hdb x hx
    · exact hdb
  | getWithdrawal id => exact hdb
  | confirmWithdrawal id =>
    simp only [applyOp]
    split
    · next w db1 hc =>
      obtain ⟨husers, -, -⟩ := ConfirmWithdrawal_ok_inv db id w db1 hc
      intro v hv
      rw [husers] at hv
      exact hdb v hv
    · exact hdb

theorem runOps_balancesNonneg (ops : List Op) (db : DB) (hdb : balancesNonneg db) :
    balancesNonneg (runOps db ops) := by
  induction ops generalizing db with
  | nil => exact hdb
  | cons op ops ih => exact ih (applyOp db op) (applyOp_balancesNonneg db op hdb)

/-- Replaying a successful creation against the state it committed returns
the same row and changes nothing. -/
theorem create_stable (db : DB) (input : CreateWithdrawalInput) (w : Withdrawal) (db1 : DB)
    (h : CreateWithdrawal db input = .ok (w, db1)) :
    CreateWithdrawal db1 input = .ok (w, db1) := by
  obtain ⟨⟨u, hu⟩, hcase⟩ := CreateWithdrawal_ok_inv db input w db1 h
  rcases hcase with ⟨rfl, hex, hsp⟩ | ⟨hfresh, hany, rfl, rfl⟩
  · exact create_replay_ok _ input u w hu hex hsp
  · have hu1 : findUser (createdDB db input) input.userId =
        some { u with balance := u.balance - input.amount } := findUser_createdDB db input u hu
    have hfresh' : db.withdrawals.find?
        (fun x => x.userId == input.userId && x.idempotencyKey == input.idempotencyKey)
        = none := hfresh
    have hex1 : getWithdrawalByIdempotency (createdDB db input) input.userId
        input.idempotencyKey = some (pendingRow db input) := by
      simp only [getWithdrawalByIdempotency, createdDB, lookupIdem, List.find?_append,
        hfresh', Option.none_or]
      simp [pendingRow]
    have hsp1 : samePayload (pendingRow db input) input = true := by
      simp [samePayload, pendingRow]
    exact create_replay_ok _ input _ _ hu1 hex1 hsp1

/-- After one success, every further identical retry returns the same row
and the same state. -/
theorem retryCreate_stable (db : DB) (input : CreateWithdrawalInput) (w : Withdrawal)
    (db1 : DB) (h : CreateWithdrawal db input = .ok (w, db1)) :
    ∀ n, retryCreate input n db = .ok (w, db1) := by
  intro n
  induction n generalizing db with
  | zero => exact h
  | succ n ih =>
    simp only [retryCreate, h]
    exact ih db1 (create_stable db input w db1 h)

/-- Serializing two fresh withdrawal requests for the same user whose
amounts each fit the balance but jointly exceed it: the first commits, the
second fails with InsufficientBalance against the debited balance. -/
theorem create_two_serialized (db : DB) (i1 i2 : CreateWithdrawalInput) (u : User)
    (hu : findUser db i1.userId = some u)
    (hall : ∀ v ∈ db.users, v.id = i1.userId → v = u)
    (huid : i2.userId = i1.userId)
    (hf1 : getWithdrawalByIdempotency db i1.userId i1.idempotencyKey = none)
    (hf2 : getWithdrawalByIdempotency db i1.userId i2.idempotencyKey = none)
    (hkeys : i2.idempotencyKey ≠ i1.idempotencyKey)
    (hp1 : 0 < i1.amount)
    (hb1 : i1.amount ≤ u.balance)
    (hsum : u.balance < i1.amount + i2.amount)
    (hc1 : i1.currency = "USDT") :
    CreateWithdrawal db i1 = .ok (pendingRow db i1, createdDB db i1) ∧
    CreateWithdrawal (createdDB db i1) i2 = .error .insufficientBalance := by
  have h1 := create_fresh_ok db i1 u hu hall hf1 hb1 hp1 hc1
  refine ⟨h1, ?_⟩
  have hu1 : findUser (createdDB db i1) i2.userId =
      some { u with balance := u.balance - i1.amount } := by
    rw [huid]
    exact findUser_createdDB db i1 u hu
  have hf2' : db.withdrawals.find?
      (fun x => x.userId == i2.userId && x.idempotencyKey == i2.idempotencyKey) = none := by
    rw [huid]
    exact hf2
  have hkey' : (i1.idempotencyKey == i2.idempotencyKey) = false :=
    beq_eq_false_iff_ne.mpr (Ne.symm hkeys)
  have hfresh1 : getWithdrawalByIdempotency (createdDB db i1) i2.userId
      i2.idempotencyKey = none := by
    simp only [getWithdrawalByIdempotency, createdDB, lookupIdem, List.find?_append,
      hf2', Option.none_or]
    simp [pendingRow, hkey']
  refine create_insufficient _ i2 _ hu1 hfresh1 ?_
  change u.balance - i1.amount < i2.amount
  omega

/-- The confirmation UPDATE touches only rows of the target id, so the
primary-key lookup afterwards returns the confirmed row. -/
theorem findWithdrawal_statusMap (db : DB) (id : Int) :
    findWithdrawal { db with withdrawals := db.withdrawals.map (fun x =>
        if x.id == id then { x with status := StatusConfirmed } else x) } id =
      (findWithdrawal db id).map
        (fun x => if x.id == id then { x with status := StatusConfirmed } else x) := by
  have hp : ((fun x : Withdrawal => x.id == id) ∘
      (fun x : Withdrawal => if x.id == id then { x with status := StatusConfirmed } else x)) =
      (fun x : Withdrawal => x.id == id) := by
    funext x
    by_cases hid : x.id = id <;> simp [hid]
  simp only [findWithdrawal, List.find?_map, hp]

/-! ### Concrete sample states used by the witnesses -/

/-- One user with id 1 and balance 1000, nothing else. -/
def db1000 : DB :=
  { users := [{ id := 1, balance := 1000 }], withdrawals := [], ledger_entries := [],
    nextWithdrawalId := 1, nextLedgerId := 1 }

/-- A 200-USDT withdrawal request for user 1 under key "k1". -/
def reqK1 : CreateWithdrawalInput :=
  { userId := 1, amount := 200, currency := "USDT", destination := "addr-1",
    idempotencyKey := "k1" }

/-- The row reqK1 creates in db1000. -/
def rowK1 : Withdrawal :=
  { id := 1, userId := 1, amount := 200, currency := "USDT", destination := "addr-1",
    status := StatusPending, idempotencyKey := "k1" }

/-- The ledger entry reqK1 appends in db1000. -/
def entryK1 : LedgerEntry :=
  { id := 1, userId := 1, withdrawalId := some 1, amount := 200,
    currency := "USDT", direction := DirectionDebit }

/-- The state after reqK1 succeeds in db1000. -/
def db1000After : DB :=
  { users := [{ id := 1, balance := 800 }], withdrawals := [rowK1],
    ledger_entries := [entryK1], nextWithdrawalId := 2, nextLedgerId := 2 }

/-- One user with id 1 and balance 100, nothing else. -/
def db100 : DB :=
  { users := [{ id := 1, balance := 100 }], withdrawals := [], ledger_entries := [],
    nextWithdrawalId := 1, nextLedgerId := 1 }

/-- User 1 with balance 800 and an existing "k1" withdrawal of 200. -/
def dbK1 : DB :=
  { users := [{ id := 1, balance := 800 }], withdrawals := [rowK1],
    ledger_entries := [], nextWithdrawalId := 2, nextLedgerId := 2 }

/-- A replay of key "k1" with a different amount (300). -/
def reqK1Conflict : CreateWithdrawalInput :=
  { userId := 1, amount := 300, currency := "USDT", destination := "addr-1",
    idempotencyKey := "k1" }

/-- A pending withdrawal with id 1. -/
def rowPending1 : Withdrawal :=
  { id := 1, userId := 1, amount := 10, currency := "USDT", destination := "d1",
    status := StatusPending, idempotencyKey := "a" }

/-- A confirmed withdrawal with id 2. -/
def rowConfirmed2 : Withdrawal :=
  { id := 2, userId := 1, amount := 20, currency := "USDT", destination := "d2",
    status := StatusConfirmed, idempotencyKey := "b" }

/-- A withdrawal with id 3 carrying a status outside the state machine. -/
def rowOdd3 : Withdrawal :=
  { id := 3, userId := 1, amount := 30, currency := "USDT", destination := "d3",
    status := "weird", idempotencyKey := "c" }

/-- A store whose withdrawals table holds one row in each status. -/
def dbStatuses : DB :=
  { users := [{ id := 1, balance := 0 }], withdrawals := [rowPending1, rowConfirmed2, rowOdd3],
    ledger_entries := [], nextWithdrawalId := 4, nextLedgerId := 1 }

/-- A conflicting racer for key "k1": same user and key, amount 300. -/
def rowK1Big : Withdrawal :=
  { id := 7, userId := 1, amount := 300, currency := "USDT", destination := "addr-1",
    status := StatusPending, idempotencyKey := "k1" }

/-- User 1 with balance 0 but an existing "k1" withdrawal of 200. -/
def dbK1Low : DB :=
  { users := [{ id := 1, balance := 0 }], withdrawals := [rowK1],
    ledger_entries := [], nextWithdrawalId := 2, nextLedgerId := 2 }

/-- A withdrawal request with a non-positive amount. -/
def reqAmount0 : createWithdrawalRequest :=
  { user_id := 1, amount := 0, currency := "USDT", destination := "d", idempotency_key := "k" }

/-- A user-creation request with a negative initial balance. -/
def reqNegBalance : createUserRequest :=
  { id := 1, balance := -5 }

/-- An 80-USDT request for user 1 under key "ka". -/
def reqA80 : CreateWithdrawalInput :=
  { userId := 1, amount := 80, currency := "USDT", destination := "a", idempotencyKey := "ka" }

/-- An 80-USDT request for user 1 under key "kb". -/
def reqB80 : CreateWithdrawalInput :=
  { userId := 1, amount := 80, currency := "USDT", destination := "b", idempotencyKey := "kb" }

/-! ### Claims -/

/-- C1: for every user and every withdrawal request that passes the schema
row checks, whose amount is at most the user's current balance and whose
(user id, idempotency key) pair is fresh, a successful CreateWithdrawal
leaves the user's balance decreased by exactly the requested amount,
exactly one withdrawal row with status pending for that (user id,
idempotency key) — the new one, appended to the table — and exactly one
new ledger entry with direction debit referencing that withdrawal; the
users table changes only at the debited row and nothing else changes. -/
theorem C1_create_success_effects (db : DB) (input : CreateWithdrawalInput) (u : User)
    (hu : findUser db input.userId = some u)
    (hall : ∀ v ∈ db.users, v.id = input.userId → v = u)
    (hfresh : getWithdrawalByIdempotency db input.userId input.idempotencyKey = none)
    (hbal : input.amount ≤ u.balance)
    (hpos : 0 < input.amount)
    (hcur : input.currency = "USDT") :
    ∃ w db1, CreateWithdrawal db input = .ok (w, db1) ∧
      w.status = StatusPending ∧ w.userId = input.userId ∧
      w.idempotencyKey = input.idempotencyKey ∧ w.amount = input.amount ∧
      findUser db1 input.userId = some { u with balance := u.balance - input.amount } ∧
      db1.withdrawals = db.withdrawals ++ [w] ∧
      db1.withdrawals.filter (fun x => x.userId == input.userId &&
        x.idempotencyKey == input.idempotencyKey) = [w] ∧
      db1.ledger_entries = db.ledger_entries ++
        [{ id := db.nextLedgerId, userId := input.userId, withdrawalId := some w.id,
           amount := input.amount, currency := input.currency, direction := DirectionDebit }] ∧
      db1.users = debitUsers db.users input.userId input.amount := by
  refine ⟨pendingRow db input, createdDB db input,
    create_fresh_ok db input u hu hall hfresh hbal hpos hcur, rfl, rfl, rfl, rfl,
    findUser_createdDB db input u hu, rfl, ?_, rfl, rfl⟩
  have hfilter : db.withdrawals.filter (fun x => x.userId == input.userId &&
      x.idempotencyKey == input.idempotencyKey) = [] := by
    rw [List.filter_eq_nil_iff]
    exact List.find?_eq_none.mp hfresh
  simp only [createdDB, List.filter_append, hfilter, List.nil_append]
  simp [pendingRow]

/-- Witness for C1 at a concrete store: user 1 with balance 1000, fresh key
"k1", amount 200. -/
theorem C1_create_success_effects_witness :
    findUser db1000 1 = some { id := 1, balance := 1000 } ∧
    (∃ w db1, CreateWithdrawal db1000 reqK1 = .ok (w, db1) ∧
      w.status = StatusPending ∧ w.userId = reqK1.userId ∧
      w.idempotencyKey = reqK1.idempotencyKey ∧ w.amount = reqK1.amount ∧
      findUser db1 reqK1.userId = some { id := 1, balance := 800 } ∧
      db1.withdrawals = db1000.withdrawals ++ [w] ∧
      db1.withdrawals.filter (fun x => x.userId == reqK1.userId &&
        x.idempotencyKey == reqK1.idempotencyKey) = [w] ∧
      db1.ledger_entries = db1000.ledger_entries ++
        [{ id := db1000.nextLedgerId, userId := reqK1.userId, withdrawalId := some w.id,
           amount := reqK1.amount, currency := reqK1.currency, direction := DirectionDebit }] ∧
      db1.users = debitUsers db1000.users reqK1.userId reqK1.amount) :=
  ⟨by decide, C1_create_success_effects db1000 reqK1 { id := 1, balance := 1000 }
    (by decide) (by decide) (by decide) (by decide) (by decide) (by decide)⟩

/-- C2: CreateWithdrawal is idempotent in the idempotency key: after one
success, issuing the identical request any further number of times returns
the same withdrawal and the same state every time — no extra row, no extra
ledger entry, no further debit. -/
theorem C2_create_idempotent (db : DB) (input : CreateWithdrawalInput)
    (w : Withdrawal) (db1 : DB)
    (h : CreateWithdrawal db input = .ok (w, db1)) :
    ∀ n, retryCreate input n db = .ok (w, db1) :=
  retryCreate_stable db input w db1 h

/-- Witness for C2: three retries of the concrete request of C1's witness
all return the first call's row and state. -/
theorem C2_create_idempotent_witness :
    CreateWithdrawal db1000 reqK1 = .ok (rowK1, db1000After) ∧
    retryCreate reqK1 3 db1000 = .ok (rowK1, db1000After) :=
  ⟨by rfl, C2_create_idempotent db1000 reqK1 rowK1 db1000After (by rfl) 3⟩

/-- C3: a withdrawal request with a fresh idempotency key whose amount
exceeds the user's current balance fails with InsufficientBalance, and the
failed operation leaves the state exactly as it was. -/
theorem C3_insufficient_balance (db : DB) (input : CreateWithdrawalInput) (u : User)
    (hu : findUser db input.userId = some u)
    (hfresh : getWithdrawalByIdempotency db input.userId input.idempotencyKey = none)
    (hlt : u.balance < input.amount) :
    CreateWithdrawal db input = .error .insufficientBalance ∧
    applyOp db (Op.createWithdrawal input) = db := by
  have he := create_insufficient db input u hu hfresh hlt
  exact ⟨he, by simp [applyOp, he]⟩

/-- Witness for C3: balance 100, requested amount 200. -/
theorem C3_insufficient_balance_witness :
    CreateWithdrawal db100 reqK1 = .error .insufficientBalance ∧
    applyOp db100 (Op.createWithdrawal reqK1) = db100 :=
  C3_insufficient_balance db100 reqK1 { id := 1, balance := 100 }
    (by decide) (by decide) (by decide)

/-- C4: if a withdrawal already exists for (user id, idempotency key) and
the incoming request differs in amount, currency or destination,
CreateWithdrawal fails with IdempotencyConflict and the failed operation
leaves the state exactly as it was. -/
theorem C4_idempotency_conflict (db : DB) (input : CreateWithdrawalInput) (u : User)
    (w : Withdrawal)
    (hu : findUser db input.userId = some u)
    (hex : getWithdrawalByIdempotency db input.userId input.idempotencyKey = some w)
    (hsp : samePayload w input = false) :
    CreateWithdrawal db input = .error .idempotencyConflict ∧
    applyOp db (Op.createWithdrawal input) = db := by
  have he := create_conflict db input u w hu hex hsp
  exact ⟨he, by simp [applyOp, he]⟩

/-- Witness for C4: key "k1" already holds an amount-200 withdrawal; the
same key is replayed with amount 300. -/
theorem C4_idempotency_conflict_witness :
    CreateWithdrawal dbK1 reqK1Conflict = .error .idempotencyConflict ∧
    applyOp dbK1 (Op.createWithdrawal reqK1Conflict) = dbK1 :=
  C4_idempotency_conflict dbK1 reqK1Conflict { id := 1, balance := 800 } rowK1
    (by decide) (by decide) (by decide)

/-- C5: starting from the empty store, no sequence of CreateUser,
CreateWithdrawal, GetWithdrawal and ConfirmWithdrawal operations can drive
any user's balance below zero. -/
theorem C5_balance_never_negative (ops : List Op) :
    balancesNonneg (runOps emptyDB ops) := by
  refine runOps_balancesNonneg ops emptyDB ?_
  intro u hu
  simp [emptyDB] at hu

/-- C6: ConfirmWithdrawal implements the pending → confirmed state machine
and nothing else: an absent id fails with NotFound; a pending withdrawal is
returned confirmed and a second confirmation returns the same confirmed row
with no further change; an already-confirmed withdrawal is returned
unchanged with no error; any other status fails with InvalidStatus; and no
row ever moves away from confirmed — every row of the result state is
either an old row or confirmed. -/
theorem C6_confirm_state_machine (db : DB) (id : Int) :
    (findWithdrawal db id = none → ConfirmWithdrawal db id = .error .notFound) ∧
    (∀ w, findWithdrawal db id = some w → w.status = StatusPending →
      ∃ db1, ConfirmWithdrawal db id = .ok ({ w with status := StatusConfirmed }, db1) ∧
        db1.users = db.users ∧ db1.ledger_entries = db.ledger_entries ∧
        ConfirmWithdrawal db1 id = .ok ({ w with status := StatusConfirmed }, db1)) ∧
    (∀ w, findWithdrawal db id = some w → w.status = StatusConfirmed →
      ConfirmWithdrawal db id = .ok (w, db)) ∧
    (∀ w, findWithdrawal db id = some w → w.status ≠ StatusPending →
      w.status ≠ StatusConfirmed → ConfirmWithdrawal db id = .error .invalidStatus) ∧
    (∀ w1 db1, ConfirmWithdrawal db id = .ok (w1, db1) →
      ∀ v ∈ db1.withdrawals, v ∈ db.withdrawals ∨ v.status = StatusConfirmed) := by
  refine ⟨?_, ?_, ?_, ?_, ?_⟩
  · intro h
    simp [ConfirmWithdrawal, h]
  · intro w hw hst
    have hpnc : StatusPending ≠ StatusConfirmed := by decide
    have hid : (w.id == id) = true := by
      have hx := List.find?_some (show db.withdrawals.find? (fun x => x.id == id) = some w
        from hw)
      simpa using hx
    refine ⟨{ db with withdrawals := db.withdrawals.map (fun x =>
        if x.id == id then { x with status := StatusConfirmed } else x) }, ?_, rfl, rfl, ?_⟩
    · simp only [ConfirmWithdrawal, hw]
      rw [if_neg (by rw [hst]; exact hpnc)]
      rw [if_neg (fun hne => hne hst)]
    · have hfind1 : findWithdrawal { db with withdrawals := db.withdrawals.map (fun x =>
          if x.id == id then { x with status := StatusConfirmed } else x) } id =
          some { w with status := StatusConfirmed } := by
        rw [findWithdrawal_statusMap]
        rw [show findWithdrawal db id = some w from hw]
        show some (if (w.id == id) = true then { w with status := StatusConfirmed } else w) = _
        rw [if_pos hid]
      simp only [ConfirmWithdrawal, hfind1]
      simp
  · intro w hw hst
    simp [ConfirmWithdrawal, hw, hst]
  · intro w hw hnp hnc
    simp [ConfirmWithdrawal, hw, hnp, hnc]
  · intro w1 db1 h v hv
    obtain ⟨-, -, hcase⟩ := ConfirmWithdrawal_ok_inv db id w1 db1 h
    rcases hcase with rfl | hmap
    · exact Or.inl hv
    · rw [hmap] at hv
      obtain ⟨x, hx, rfl⟩ := List.mem_map.mp hv
      by_cases hid : x.id = id
      · right
        simp [hid]
      · left
        simpa [hid] using hx

/-- Witness for C6 on a concrete store holding a pending row (id 1), a
confirmed row (id 2) and a defensively malformed status (id 3); id 4 is
absent. -/
theorem C6_confirm_state_machine_witness :
    ConfirmWithdrawal dbStatuses 4 = .error .notFound ∧
    (∃ db1, ConfirmWithdrawal dbStatuses 1 =
        .ok ({ rowPending1 with status := StatusConfirmed }, db1) ∧
      db1.users = dbStatuses.users ∧ db1.ledger_entries = dbStatuses.ledger_entries ∧
      ConfirmWithdrawal db1 1 = .ok ({ rowPending1 with status := StatusConfirmed }, db1)) ∧
    ConfirmWithdrawal dbStatuses 2 = .ok (rowConfirmed2, dbStatuses) ∧
    ConfirmWithdrawal dbStatuses 3 = .error .invalidStatus :=
  ⟨(C6_confirm_state_machine dbStatuses 4).1 (by decide),
   (C6_confirm_state_machine dbStatuses 1).2.1 rowPending1 (by decide) (by decide),
   (C6_confirm_state_machine dbStatuses 2).2.2.1 rowConfirmed2 (by decide) (by decide),
   (C6_confirm_state_machine dbStatuses 3).2.2.2.1 rowOdd3 (by decide) (by decide) (by decide)⟩

/-- C7: when the insert of the withdrawal row hits the storage-level
uniqueness violation on (user id, idempotency key) — a row for the pair
committed concurrently between the lookup and the insert — the idempotency
lookup is re-run once: a now-visible row matching the request's payload is
returned with no further mutation; a differing row fails the call with
IdempotencyConflict; and if the re-lookup finds nothing the call fails
with the storage error. -/
theorem C7_unique_violation_recovery (db : DB) (input : CreateWithdrawalInput)
    (r : Withdrawal) (u : User)
    (hu : findUser db input.userId = some u)
    (hfresh : getWithdrawalByIdempotency db input.userId input.idempotencyKey = none)
    (hbal : input.amount ≤ u.balance)
    (hpos : 0 < input.amount)
    (hcur : input.currency = "USDT")
    (hr1 : r.userId = input.userId)
    (hr2 : r.idempotencyKey = input.idempotencyKey) :
    insertWithdrawal db input (some r) = .error .uniqueViolation ∧
    (samePayload r input = true → CreateWithdrawalRaced db input (some r) = .ok (r, db)) ∧
    (samePayload r input = false →
      CreateWithdrawalRaced db input (some r) = .error .idempotencyConflict) ∧
    (∀ visible e, lookupIdem visible input.userId input.idempotencyKey = none →
      onUniqueViolation visible input e = .error e) := by
  have hfresh' : db.withdrawals.find?
      (fun x => x.userId == input.userId && x.idempotencyKey == input.idempotencyKey)
      = none := hfresh
  have hchk : ¬ (input.amount ≤ 0 ∨ input.currency ≠ "USDT") := by
    push_neg
    exact ⟨by omega, hcur⟩
  have hfreshL : lookupIdem db.withdrawals input.userId input.idempotencyKey = none := hfresh
  have hlook : lookupIdem (db.withdrawals ++ [r]) input.userId
      input.idempotencyKey = some r := by
    simp [lookupIdem, List.find?_append, hfresh', hr1, hr2]
  have hins : insertWithdrawal db input (some r) = .error .uniqueViolation := by
    simp [insertWithdrawal, if_neg hchk, hlook]
  have hnotlt : ¬ u.balance < input.amount := not_lt.mpr hbal
  refine ⟨hins, ?_, ?_, ?_⟩
  · intro hsp
    simp [CreateWithdrawalRaced, hu, getWithdrawalByIdempotency, hfreshL, hnotlt, hins,
      onUniqueViolation, hlook, hsp]
  · intro hsp
    simp [CreateWithdrawalRaced, hu, getWithdrawalByIdempotency, hfreshL, hnotlt, hins,
      onUniqueViolation, hlook, hsp]
  · intro visible e hnone
    simp [onUniqueViolation, hnone]

/-- Witness for C7: racing key "k1" against an identical committed row
returns that row; against a 300-amount row it conflicts; an empty visible
set propagates the storage error. -/
theorem C7_unique_violation_recovery_witness :
    insertWithdrawal db1000 reqK1 (some rowK1) = .error .uniqueViolation ∧
    CreateWithdrawalRaced db1000 reqK1 (some rowK1) = .ok (rowK1, db1000) ∧
    CreateWithdrawalRaced db1000 reqK1 (some rowK1Big) = .error .idempotencyConflict ∧
    onUniqueViolation [] reqK1 .storage = .error .storage :=
  ⟨(C7_unique_violation_recovery db1000 reqK1 rowK1 { id := 1, balance := 1000 }
      (by decide) (by decide) (by decide) (by decide) (by decide) (by decide) (by decide)).1,
   (C7_unique_violation_recovery db1000 reqK1 rowK1 { id := 1, balance := 1000 }
      (by decide) (by decide) (by decide) (by decide) (by decide) (by decide) (by decide)).2.1
     (by decide),
   (C7_unique_violation_recovery db1000 reqK1 rowK1Big { id := 1, balance := 1000 }
      (by decide) (by decide) (by decide) (by decide) (by decide) (by decide) (by decide)).2.2.1
     (by decide),
   (C7_unique_violation_recovery db1000 reqK1 rowK1 { id := 1, balance := 1000 }
      (by decide) (by decide) (by decide) (by decide) (by decide) (by decide) (by decide)).2.2.2
     [] .storage (by decide)⟩

/-- C8: a structurally or semantically invalid request — an undecodable
body (malformed JSON or unrecognized fields), non-positive user id or
amount, a currency other than USDT, empty destination or idempotency key,
or a negative initial balance — is rejected with invalid_request by the
handler's validation before the store is called, and the store state is
returned unchanged. -/
theorem C8_invalid_input_rejected :
    (∀ db, handleCreateWithdrawal db none =
      (.error { status := 400, code := "invalid_request" }, db)) ∧
    (∀ db req, validateCreateWithdrawal req = false →
      handleCreateWithdrawal db (some req) =
        (.error { status := 400, code := "invalid_request" }, db)) ∧
    (∀ req, (req.user_id ≤ 0 ∨ req.amount ≤ 0 ∨ req.currency.trim ≠ "USDT" ∨
      req.destination.trim = "" ∨ req.idempotency_key.trim = "") →
      validateCreateWithdrawal req = false) ∧
    (∀ db, handleCreateUser db none =
      (.error { status := 400, code := "invalid_request" }, db)) ∧
    (∀ db req, validateCreateUser req = false →
      handleCreateUser db (some req) =
        (.error { status := 400, code := "invalid_request" }, db)) ∧
    (∀ req : createUserRequest, (req.id ≤ 0 ∨ req.balance < 0) →
      validateCreateUser req = false) := by
  refine ⟨fun db => rfl, ?_, ?_, fun db => rfl, ?_, ?_⟩
  · intro db req hv
    simp [handleCreateWithdrawal, hv]
  · intro req hbad
    simp only [validateCreateWithdrawal, Bool.and_eq_false_iff]
    rcases hbad with h | h | h | h | h
    · exact Or.inl (Or.inl (Or.inl (Or.inl (by simpa using h))))
    · exact Or.inl (Or.inl (Or.inl (Or.inr (by simpa using h))))
    · exact Or.inl (Or.inl (Or.inr (beq_eq_false_iff_ne.mpr h)))
    · exact Or.inl (Or.inr (by simp [h]))
    · exact Or.inr (by simp [h])
  · intro db req hv
    simp [handleCreateUser, hv]
  · intro req hbad
    simp only [validateCreateUser, Bool.and_eq_false_iff]
    rcases hbad with h | h
    · exact Or.inl (by simpa using h)
    · exact Or.inr (by simpa using h)

/-- Witness for C8: amount 0 and balance -5 are rejected with no state
change, as are undecodable bodies. -/
theorem C8_invalid_input_rejected_witness :
    validateCreateWithdrawal reqAmount0 = false ∧
    handleCreateWithdrawal db1000 (some reqAmount0) =
      (.error { status := 400, code := "invalid_request" }, db1000) ∧
    handleCreateWithdrawal db1000 none =
      (.error { status := 400, code := "invalid_request" }, db1000) ∧
    validateCreateUser reqNegBalance = false ∧
    handleCreateUser db1000 (some reqNegBalance) =
      (.error { status := 400, code := "invalid_request" }, db1000) ∧
    handleCreateUser db1000 none =
      (.error { status := 400, code := "invalid_request" }, db1000) :=
  ⟨C8_invalid_input_rejected.2.2.1 reqAmount0 (Or.inr (Or.inl (by decide))),
   C8_invalid_input_rejected.2.1 db1000 reqAmount0 (by decide),
   C8_invalid_input_rejected.1 db1000,
   C8_invalid_input_rejected.2.2.2.2.2 reqNegBalance (Or.inr (by decide)),
   C8_invalid_input_rejected.2.2.2.2.1 db1000 reqNegBalance (by decide),
   C8_invalid_input_rejected.2.2.2.1 db1000⟩

/-- C9: two withdrawal requests for the same user with distinct fresh keys,
each amount within the balance but jointly above it, serialized by the
per-user row lock in either order: the first to run succeeds, the second
fails with InsufficientBalance, and the final balance is the initial
balance minus the amount of the one that succeeded. -/
theorem C9_concurrent_exactly_one (db : DB) (i1 i2 : CreateWithdrawalInput) (u : User)
    (hu : findUser db i1.userId = some u)
    (hall : ∀ v ∈ db.users, v.id = i1.userId → v = u)
    (huid : i2.userId = i1.userId)
    (hf1 : getWithdrawalByIdempotency db i1.userId i1.idempotencyKey = none)
    (hf2 : getWithdrawalByIdempotency db i1.userId i2.idempotencyKey = none)
    (hkeys : i1.idempotencyKey ≠ i2.idempotencyKey)
    (hp1 : 0 < i1.amount) (hp2 : 0 < i2.amount)
    (hb1 : i1.amount ≤ u.balance) (hb2 : i2.amount ≤ u.balance)
    (hsum : u.balance < i1.amount + i2.amount)
    (hc1 : i1.currency = "USDT") (hc2 : i2.currency = "USDT") :
    (CreateWithdrawal db i1 = .ok (pendingRow db i1, createdDB db i1) ∧
     CreateWithdrawal (createdDB db i1) i2 = .error .insufficientBalance ∧
     findUser (createdDB db i1) i1.userId =
       some { u with balance := u.balance - i1.amount }) ∧
    (CreateWithdrawal db i2 = .ok (pendingRow db i2, createdDB db i2) ∧
     CreateWithdrawal (createdDB db i2) i1 = .error .insufficientBalance ∧
     findUser (createdDB db i2) i2.userId =
       some { u with balance := u.balance - i2.amount }) := by
  have hu2 : findUser db i2.userId = some u := by
    rw [huid]
    exact hu
  have hall2 : ∀ v ∈ db.users, v.id = i2.userId → v = u := by
    intro v hv hvid
    exact hall v hv (by rw [← huid, hvid])
  have hf2a : getWithdrawalByIdempotency db i2.userId i2.idempotencyKey = none := by
    rw [huid]
    exact hf2
  have hf1a : getWithdrawalByIdempotency db i2.userId i1.idempotencyKey = none := by
    rw [huid]
    exact hf1
  obtain ⟨h1, h2⟩ := create_two_serialized db i1 i2 u hu hall huid hf1 hf2
    (Ne.symm hkeys) hp1 hb1 hsum hc1
  obtain ⟨h3, h4⟩ := create_two_serialized db i2 i1 u hu2 hall2 huid.symm hf2a hf1a
    hkeys hp2 hb2 (by omega) hc2
  exact ⟨⟨h1, h2, findUser_createdDB db i1 u hu⟩,
         ⟨h3, h4, findUser_createdDB db i2 u hu2⟩⟩

/-- Witness for C9: balance 100, two 80-USDT requests under keys "ka" and
"kb" — in both serializations exactly the first succeeds and the final
balance is 20. -/
theorem C9_concurrent_exactly_one_witness :
    (CreateWithdrawal db100 reqA80 = .ok (pendingRow db100 reqA80, createdDB db100 reqA80) ∧
     CreateWithdrawal (createdDB db100 reqA80) reqB80 = .error .insufficientBalance ∧
     findUser (createdDB db100 reqA80) 1 = some { id := 1, balance := 20 }) ∧
    (CreateWithdrawal db100 reqB80 = .ok (pendingRow db100 reqB80, createdDB db100 reqB80) ∧
     CreateWithdrawal (createdDB db100 reqB80) reqA80 = .error .insufficientBalance ∧
     findUser (createdDB db100 reqB80) 1 = some { id := 1, balance := 20 }) :=
  C9_concurrent_exactly_one db100 reqA80 reqB80 { id := 1, balance := 100 }
    (by decide) (by decide) (by decide) (by decide) (by decide) (by decide)
    (by decide) (by decide) (by decide) (by decide) (by decide) (by decide) (by decide)

/-- C10: when an existing withdrawal matches the request's (user id,
idempotency key) and its payload equals the incoming request,
CreateWithdrawal returns that withdrawal without performing the balance
check — the replay succeeds even though the user's current balance is
strictly below the requested amount. -/
theorem C10_replay_skips_balance_check (db : DB) (input : CreateWithdrawalInput)
    (u : User) (w : Withdrawal)
    (hu : findUser db input.userId = some u)
    (hex : getWithdrawalByIdempotency db input.userId input.idempotencyKey = some w)
    (hsp : samePayload w input = true)
    (hlt : u.balance < input.amount) :
    CreateWithdrawal db input = .ok (w, db) :=
  create_replay_ok db input u w hu hex hsp

/-- Witness for C10: user 1 has balance 0, yet replaying the stored 200-USDT
"k1" request succeeds and changes nothing. -/
theorem C10_replay_skips_balance_check_witness :
    CreateWithdrawal dbK1Low reqK1 = .ok (rowK1, dbK1Low) :=
  C10_replay_skips_balance_check dbK1Low reqK1 { id := 1, balance := 0 } rowK1
    (by decide) (by decide) (by decide) (by decide)

end HH
